import Mathlib

/-! Verification of the title-extractor pipeline (`src/titlextractor.go`).

The program reads URLs line by line, fetches each with a pool of workers,
extracts the page title and prints one colorized line per URL.  We embed the
pure parts of the program shallowly:

* Strings are Lean `String`s; character-level work uses `List Char`.
* The HTML tokenizer (`golang.org/x/net/html`) is an external black box; we
  model its output at the interface: a list of non-error tokens (`Tok`)
  followed by a terminal condition (`none` = clean EOF, `some e` = a stream
  error whose description is `e`).  `Tokenizer.Token()` on an error token has
  an empty `Data` field, which the model reflects when the token list is
  exhausted.
* The network is an oracle `fetch : String → FetchOutcome` mapping a URL to
  either a failure (the error description, as produced by
  `http.NewRequestWithContext` or `client.Do`) or a success carrying the HTTP
  status code and the tokenized response body.
* The concurrent worker pool is modelled by its channel semantics: each queue
  item is delivered to exactly one worker, so a run of the pool corresponds to
  splitting the URL queue into per-worker sublists whose merge is a
  permutation of the queue; each worker is the sequential loop
  `getWebContent`.
-/

/-- Go `unicode.IsSpace` restricted to the Latin-1 range (the full Unicode
space classes add only higher code points, which none of the claims touch):
space, tab, newline, vertical tab, form feed, carriage return, NEL, NBSP. -/
def goIsSpace (c : Char) : Bool :=
  c = ' ' || c = '\t' || c = '\n' || c = '\x0b' || c = '\x0c' || c = '\r' ||
  c = '\u0085' || c = ' '

/-- Go `strings.Fields` at the character-list level: split around maximal runs
of whitespace, returning the non-empty whitespace-free words in order.  `acc`
holds the reversed characters of the word currently being read. -/
def goFieldsAux : List Char → List Char → List (List Char)
  | [], acc => if acc = [] then [] else [acc.reverse]
  | c :: cs, acc =>
    if goIsSpace c then
      if acc = [] then goFieldsAux cs []
      else acc.reverse :: goFieldsAux cs []
    else goFieldsAux cs (c :: acc)

/-- Go `strings.Fields` on a character list. -/
def goFields (cs : List Char) : List (List Char) :=
  goFieldsAux cs []

/-- Go `strings.Join` with separator `" "`, at the character-list level. -/
def joinSp (fs : List (List Char)) : List Char :=
  (List.intersperse [' '] fs).flatten

/-- Go `strings.TrimSpace` at the character-list level: drop leading and
trailing whitespace. -/
def trimSpaceC (cs : List Char) : List Char :=
  ((cs.dropWhile goIsSpace).reverse.dropWhile goIsSpace).reverse

/-- Go `strings.TrimSpace` on strings. -/
def trimSpace (s : String) : String :=
  String.mk (trimSpaceC s.toList)

/-- The normalization applied at `titlextractor.go:55`:
`strings.TrimSpace(strings.Join(strings.Fields(title), " "))`. -/
def normalizeTitle (s : String) : String :=
  String.mk (trimSpaceC (joinSp (goFields s.toList)))

/-- A non-error token of the black-box HTML tokenizer.  Every token kind
carries its `Data` field: tag name for tag tokens, text for text tokens. -/
inductive Tok where
  | startTag (data : String)
  | endTag (data : String)
  | text (data : String)
  | selfClosing (data : String)
  | comment (data : String)
  | doctype (data : String)
deriving DecidableEq, Repr

/-- The `Data` field of a token. -/
def Tok.data : Tok → String
  | .startTag d => d
  | .endTag d => d
  | .text d => d
  | .selfClosing d => d
  | .comment d => d
  | .doctype d => d

/-- The test at `titlextractor.go:46-48`:
`tokenType == html.StartTagToken && token.Data == "title"`. -/
def isTitleStart : Tok → Bool
  | .startTag d => d = "title"
  | _ => false

/-- The scanning loop of `getTitle` (`titlextractor.go:37-54`) over the
modelled token stream.  On the first `<title>` start tag it takes the `Data`
of the immediately following token (empty when the stream ends there, since
`Token()` on an error token has empty `Data`); at the end of the stream it
yields the placeholder on clean EOF and the error description otherwise. -/
def getTitleRaw : List Tok → Option String → String
  | [], none => "<title> tag missing"
  | [], some e => e
  | t :: rest, term =>
    if isTitleStart t then
      match rest with
      | [] => ""
      | next :: _ => next.data
    else getTitleRaw rest term

/-- Function `getTitle` (`titlextractor.go:33-56`): scan for the title, then
normalize whitespace before returning. -/
def getTitle (toks : List Tok) (term : Option String) : String :=
  normalizeTitle (getTitleRaw toks term)

/-- The `result` record (`titlextractor.go:28-31`).  Zero values of the Go
struct are the empty string and `0`. -/
structure result where
  url : String
  title : String
  err : String
  responseCode : Int
deriving DecidableEq, Repr

/-- Outcome of the network oracle for one URL: either request construction or
transport fails with an error description, or a response arrives with a status
code and a tokenized body (token list plus terminal condition). -/
inductive FetchOutcome where
  | failure (errMsg : String)
  | success (statusCode : Int) (bodyToks : List Tok) (bodyTerm : Option String)
deriving DecidableEq, Repr

/-- One iteration of the `getWebContent` loop (`titlextractor.go:60-84`) for a
single URL: on failure the result carries the error description and the zero
status code and title; on success it carries the status code and the extracted
title. -/
def getWebContentOne (fetch : String → FetchOutcome) (url : String) : result :=
  match fetch url with
  | .failure e => { url := url, title := "", err := e, responseCode := 0 }
  | .success code toks term =>
    { url := url, title := getTitle toks term, err := "", responseCode := code }

/-- The whole `getWebContent` loop (`titlextractor.go:58-85`): process every
URL received from the queue, in order, producing one result each. -/
def getWebContent (fetch : String → FetchOutcome) (urls : List String) :
    List result :=
  urls.map (getWebContentOne fetch)

def colorReset : String := "\x1b[0m"
def colorGreen : String := "\x1b[32m"
def colorYellow : String := "\x1b[33m"
def colorOrange : String := "\x1b[33;1m"
def colorMagenta : String := "\x1b[35m"

/-- Function `colorForStatusCode` (`titlextractor.go:87-100`). -/
def colorForStatusCode (statusCode : Int) : String :=
  if 200 ≤ statusCode ∧ statusCode < 300 then colorGreen
  else if 300 ≤ statusCode ∧ statusCode < 400 then colorYellow
  else if 400 ≤ statusCode ∧ statusCode < 500 then colorOrange
  else if 500 ≤ statusCode then colorMagenta
  else colorReset

/-- The URL-producing goroutine (`titlextractor.go:116-127`): trim each input
line and push it on the queue unless the trimmed line is empty. -/
def urlQueue (inputLines : List String) : List String :=
  (inputLines.map trimSpace).filter (fun l => l ≠ "")

/-- The presenter loop body (`titlextractor.go:152-159`): one output line per
result.  The status-derived color is computed first; error results are then
printed with the magenta marker and `[Error]` format instead. -/
def presentResult (res : result) : String :=
  let color := colorForStatusCode res.responseCode
  if res.err ≠ "" then
    colorMagenta ++ "[Error] " ++ res.url ++ ": " ++ res.err ++ colorReset ++ "\n"
  else
    color ++ "[" ++ toString res.responseCode ++ "] " ++ res.url ++ ": " ++
      res.title ++ colorReset ++ "\n"

/-- Merged output of a pool run whose per-worker URL sublists are `parts`:
each worker runs the `getWebContent` loop on the URLs it received. -/
def poolResults (fetch : String → FetchOutcome) (parts : List (List String)) :
    List result :=
  (parts.map (getWebContent fetch)).flatten

/-- How a run of `main` terminates. `configError` is the outcome the spec
demands for a bad worker count; the code never produces it. -/
inductive RunOutcome where
  | configError (msg : String)
  | panicked (msg : String)
  | completed (results : List result)
deriving DecidableEq, Repr

/-- Function `main` (`titlextractor.go:102-159`) as a function of the configured worker
count.  There is no validation branch: a negative count panics when
`make(chan string, concurrent*2)` is evaluated with a negative capacity; a
zero count starts no workers, so `wg.Wait()` returns at once, `results` is
closed and the presenter loop ends with nothing processed; a positive count
runs the pipeline to completion over the URL queue. -/
def runMain (fetch : String → FetchOutcome) (concurrent : Int)
    (inputLines : List String) : RunOutcome :=
  if concurrent < 0 then .panicked "makechan: size out of range"
  else if concurrent = 0 then .completed []
  else .completed (getWebContent fetch (urlQueue inputLines))

/-- Whether a run outcome is a configuration error. -/
def RunOutcome.isConfigError : RunOutcome → Bool
  | .configError _ => true
  | _ => false

/-- A network oracle on which every request fails with a transport error. -/
def noNetwork : String → FetchOutcome :=
  fun _ => .failure "dial tcp: connection refused"

/-- A network oracle returning a 200 response whose title element contains
only whitespace (body `<title>   </title>`, tokenized). -/
def emptyTitleFetch : String → FetchOutcome :=
  fun _ => .success 200 [Tok.startTag "title", Tok.text "   "] none

/-! Helper lemmas about the whitespace splitter and the title scan. -/

/-- Every field produced by `goFieldsAux` from a whitespace-free accumulator
is non-empty and whitespace-free. -/
theorem goFieldsAux_wordlike (cs : List Char) :
    ∀ acc : List Char, (∀ c ∈ acc, goIsSpace c = false) →
      ∀ f ∈ goFieldsAux cs acc, f ≠ [] ∧ ∀ c ∈ f, goIsSpace c = false := by
  induction cs with
  | nil =>
    intro acc hacc f hf
    simp only [goFieldsAux] at hf
    split at hf
    · simp at hf
    · next hne =>
      simp only [List.mem_singleton] at hf
      subst hf
      refine ⟨by simpa using hne, ?_⟩
      intro c hc
      exact hacc c (List.mem_reverse.mp hc)
  | cons c cs ih =>
    intro acc hacc f hf
    simp only [goFieldsAux] at hf
    split at hf
    · split at hf
      · exact ih [] (by simp) f hf
      · next hne =>
        rcases List.mem_cons.mp hf with rfl | hf
        · exact ⟨by simpa using hne, fun d hd => hacc d (List.mem_reverse.mp hd)⟩
        · exact ih [] (by simp) f hf
    · next hc =>
      refine ih (c :: acc) ?_ f hf
      intro d hd
      rcases List.mem_cons.mp hd with rfl | hd
      · simpa using hc
      · exact hacc d hd

/-- Concatenating the fields recovers exactly the non-whitespace characters of
the input, in order: the splitter drops whitespace and nothing else. -/
theorem goFieldsAux_flatten (cs : List Char) :
    ∀ acc : List Char,
      (goFieldsAux cs acc).flatten
        = acc.reverse ++ cs.filter (fun c => !goIsSpace c) := by
  induction cs with
  | nil =>
    intro acc
    simp only [goFieldsAux]
    split
    · next h => subst h; simp
    · simp
  | cons c cs ih =>
    intro acc
    simp only [goFieldsAux]
    split
    · next hsp =>
      split
      · next h => subst h; simp [ih, List.filter_cons, hsp]
      · simp [ih, List.filter_cons, hsp]
    · next hsp =>
      have hb : (!goIsSpace c) = true := by simpa using hsp
      simp [ih, List.filter_cons, hb]

/-- If no token of the stream is a `<title>` start tag, the scanning loop
reaches the end of the stream and yields the placeholder on clean EOF. -/
theorem getTitleRaw_no_title_eof (toks : List Tok)
    (h : ∀ t ∈ toks, isTitleStart t = false) :
    getTitleRaw toks none = "<title> tag missing" := by
  induction toks with
  | nil => rfl
  | cons t rest ih =>
    have ht := h t (List.mem_cons_self t rest)
    simp only [getTitleRaw, ht, Bool.false_eq_true, if_false]
    exact ih fun u hu => h u (List.mem_cons_of_mem t hu)

/-- If no token of the stream is a `<title>` start tag, the scanning loop
reaches the end of the stream and yields the error description on a stream
error. -/
theorem getTitleRaw_no_title_err (toks : List Tok) (e : String)
    (h : ∀ t ∈ toks, isTitleStart t = false) :
    getTitleRaw toks (some e) = e := by
  induction toks with
  | nil => rfl
  | cons t rest ih =>
    have ht := h t (List.mem_cons_self t rest)
    simp only [getTitleRaw, ht, Bool.false_eq_true, if_false]
    exact ih fun u hu => h u (List.mem_cons_of_mem t hu)

/-! Claim theorems. -/

/-- C1 counterexample: running `main` with worker count 0 on a non-empty
input completes normally with no results — it is a silent no-op, not a
configuration-error failure, contrary to the claim that an invalid worker
count is rejected before the pool starts. -/
theorem runMain_zero_workers_counterexample :
    runMain noNetwork 0 ["http://example.com"] = RunOutcome.completed []
    ∧ (runMain noNetwork 0 ["http://example.com"]).isConfigError = false := by
  decide

/-- C1 (amended): `main` never validates the worker count.  A worker count of
0 yields a normal, empty run (no worker is started, so no URL is fetched and
no result is produced), and a negative worker count makes
`make(chan string, concurrent*2)` panic at startup with a negative channel
capacity; neither path reports a configuration error. -/
theorem runMain_no_validation (fetch : String → FetchOutcome)
    (inputLines : List String) (c : Int) (hc : c ≤ 0) :
    runMain fetch c inputLines
      = if c = 0 then RunOutcome.completed []
        else RunOutcome.panicked "makechan: size out of range" := by
  rcases hc.lt_or_eq with h | h
  · simp [runMain, h, h.ne]
  · simp [runMain, h]

/-- C1 witness: the amended statement evaluated at worker count 0 on a
one-line input. -/
theorem runMain_no_validation_witness :
    runMain noNetwork 0 ["http://example.com"]
      = if (0 : Int) = 0 then RunOutcome.completed []
        else RunOutcome.panicked "makechan: size out of range" :=
  runMain_no_validation noNetwork ["http://example.com"] 0 (by decide)

/-- C2 counterexample: a successful 200 fetch whose title element contains
only whitespace produces a result in which the title and the error are both
empty, so a result does not always carry exactly one of
{title present, error present}. -/
theorem result_exactly_one_counterexample :
    (getWebContentOne emptyTitleFetch "http://x.com").title = ""
    ∧ (getWebContentOne emptyTitleFetch "http://x.com").err = ""
    ∧ ¬(((getWebContentOne emptyTitleFetch "http://x.com").title ≠ ""
          ∧ (getWebContentOne emptyTitleFetch "http://x.com").err = "")
        ∨ ((getWebContentOne emptyTitleFetch "http://x.com").title = ""
          ∧ (getWebContentOne emptyTitleFetch "http://x.com").err ≠ "")) := by
  decide

/-- C2 (amended): a result produced by the fetch worker never carries both a
populated title and a populated error — the failure path leaves the title at
its zero value and the success path leaves the error at its zero value — but
both fields may be empty at once. -/
theorem result_never_both_populated (fetch : String → FetchOutcome)
    (url : String) :
    ¬((getWebContentOne fetch url).title ≠ ""
      ∧ (getWebContentOne fetch url).err ≠ "") := by
  cases h : fetch url <;> simp [getWebContentOne, h]

/-- C3 counterexample: status code 600 is outside every range named by the
claim, so the claim assigns it the neutral marker, yet the code maps it to
the server-error (magenta) marker because the final case of
`colorForStatusCode` tests `statusCode >= 500` with no upper bound. -/
theorem colorForStatusCode_600_counterexample :
    colorForStatusCode 600 = colorMagenta ∧ colorMagenta ≠ colorReset := by
  decide

/-- C3 (amended): the display category is a pure function of the status code
with 200–299 green (success), 300–399 yellow (redirect), 400–499 orange
(client error), every code from 500 upward — not only 500–599 — magenta
(server error), and every code below 200 (including 0) the neutral reset
marker. -/
theorem colorForStatusCode_classes (s : Int) :
    (colorForStatusCode s = colorGreen ↔ 200 ≤ s ∧ s < 300)
    ∧ (colorForStatusCode s = colorYellow ↔ 300 ≤ s ∧ s < 400)
    ∧ (colorForStatusCode s = colorOrange ↔ 400 ≤ s ∧ s < 500)
    ∧ (colorForStatusCode s = colorMagenta ↔ 500 ≤ s)
    ∧ (colorForStatusCode s = colorReset ↔ s < 200) := by
  unfold colorForStatusCode
  split_ifs with h1 h2 h3 h4 <;>
    refine ⟨⟨fun he => ?_, fun hr => ?_⟩, ⟨fun he => ?_, fun hr => ?_⟩,
      ⟨fun he => ?_, fun hr => ?_⟩, ⟨fun he => ?_, fun hr => ?_⟩,
      ⟨fun he => ?_, fun hr => ?_⟩⟩ <;>
    first
      | rfl
      | omega
      | exact absurd he (by decide)

/-- C4: for any pool of N ≥ 1 workers — modelled by any split of the URL
queue into N per-worker sublists whose merge is a permutation of the queue —
the merged results are exactly one result per queue entry (a permutation of
mapping the worker body over the queue), the number of results equals the
number of non-blank input lines, and blank or whitespace-only lines
contribute no queue entry. -/
theorem pool_one_result_per_nonblank_line (fetch : String → FetchOutcome)
    (N : Nat) (inputLines : List String) (parts : List (List String))
    (hN : 1 ≤ N) (hparts : parts.length = N)
    (hperm : parts.flatten.Perm (urlQueue inputLines)) :
    (poolResults fetch parts).Perm
        ((urlQueue inputLines).map (getWebContentOne fetch))
    ∧ (poolResults fetch parts).length
        = (inputLines.filter (fun l => trimSpace l ≠ "")).length
    ∧ "" ∉ urlQueue inputLines := by
  have hmap : poolResults fetch parts
      = parts.flatten.map (getWebContentOne fetch) := by
    unfold poolResults getWebContent
    rw [List.map_flatten]
  have h1 : (poolResults fetch parts).Perm
      ((urlQueue inputLines).map (getWebContentOne fetch)) := by
    rw [hmap]; exact hperm.map _
  refine ⟨h1, ?_, ?_⟩
  · rw [h1.length_eq, List.length_map]
    unfold urlQueue
    rw [List.filter_map]
    simp only [List.length_map]
    rfl
  · intro hu
    simp [urlQueue, List.mem_filter] at hu

/-- C4 witness: one worker, input with one URL line, one blank line and one
whitespace-only line; the single worker receives the whole queue. -/
theorem pool_one_result_per_nonblank_line_witness :
    (poolResults noNetwork [["http://a.com"]]).Perm
        ((urlQueue ["http://a.com", "", "   "]).map (getWebContentOne noNetwork))
    ∧ (poolResults noNetwork [["http://a.com"]]).length
        = ((["http://a.com", "", "   "] : List String).filter
            (fun l => trimSpace l ≠ "")).length
    ∧ "" ∉ urlQueue ["http://a.com", "", "   "] :=
  pool_one_result_per_nonblank_line noNetwork 1 ["http://a.com", "", "   "]
    [["http://a.com"]] (by decide) (by decide) (by decide)

/-- C5: title extraction normalizes whitespace.  On the body
`<html><head><title>Hello   World</title></head></html>` the extracted title
is exactly "Hello World"; and in general the returned string is the raw
scanned title split into its non-empty, whitespace-free words — whose
concatenation is precisely the raw title's non-whitespace characters in
order — joined by single spaces and trimmed. -/
theorem getTitle_whitespace_normalization :
    getTitle [Tok.startTag "html", Tok.startTag "head", Tok.startTag "title",
        Tok.text "Hello   World", Tok.endTag "title", Tok.endTag "head",
        Tok.endTag "html"] none = "Hello World"
    ∧ ∀ (toks : List Tok) (term : Option String),
        ∃ fs : List (List Char),
          (getTitle toks term).toList = trimSpaceC (joinSp fs)
          ∧ (∀ f ∈ fs, f ≠ [] ∧ ∀ c ∈ f, goIsSpace c = false)
          ∧ fs.flatten
            = (getTitleRaw toks term).toList.filter (fun c => !goIsSpace c) := by
  refine ⟨by decide, ?_⟩
  intro toks term
  refine ⟨goFields (getTitleRaw toks term).toList, rfl, ?_, ?_⟩
  · exact goFieldsAux_wordlike _ [] (by simp)
  · exact goFieldsAux_flatten _ []

/-- C6: when no `<title>` start tag occurs before the clean end of the
stream, title extraction returns exactly the literal placeholder
"\x3ctitle> tag missing". -/
theorem getTitle_no_title_tag (toks : List Tok)
    (h : ∀ t ∈ toks, isTitleStart t = false) :
    getTitle toks none = "<title> tag missing" := by
  unfold getTitle
  rw [getTitleRaw_no_title_eof toks h]
  decide

/-- C6 witness: a body with tags and text but no title element. -/
theorem getTitle_no_title_tag_witness :
    getTitle [Tok.startTag "html", Tok.text "hi", Tok.endTag "html"] none
      = "<title> tag missing" :=
  getTitle_no_title_tag [Tok.startTag "html", Tok.text "hi", Tok.endTag "html"]
    (by decide)

/-- C7: when the stream reports an error other than clean EOF before any
`<title>` start tag was seen, title extraction returns that error's
description — pushed through the same whitespace normalization as a real
title — as the title string, not a structured error. -/
theorem getTitle_stream_error (toks : List Tok) (e : String)
    (h : ∀ t ∈ toks, isTitleStart t = false) :
    getTitle toks (some e) = normalizeTitle e := by
  unfold getTitle
  rw [getTitleRaw_no_title_err toks e h]

/-- C7 witness: a truncated body whose stream fails with "read error". -/
theorem getTitle_stream_error_witness :
    getTitle [Tok.text "partial body"] (some "read error") = "read error" :=
  (getTitle_stream_error [Tok.text "partial body"] "read error"
    (by decide)).trans (by decide)

/-- C8: when the fetch of a URL fails (request construction or transport),
the worker produces the result carrying that URL and the error's description
with the status code and title left at their zero values, and the worker
loop still processes every other URL of its queue exactly once — one
attempt per URL, no retry, processing continuing after the failure. -/
theorem getWebContent_failure_local (fetch : String → FetchOutcome)
    (url e : String) (us₁ us₂ : List String) (h : fetch url = .failure e) :
    getWebContentOne fetch url
      = { url := url, title := "", err := e, responseCode := 0 }
    ∧ getWebContent fetch (us₁ ++ url :: us₂)
      = getWebContent fetch us₁
        ++ getWebContentOne fetch url :: getWebContent fetch us₂ := by
  constructor
  · simp [getWebContentOne, h]
  · simp [getWebContent]

/-- C8 witness: a failing URL between two other queue entries. -/
theorem getWebContent_failure_local_witness :
    getWebContentOne noNetwork "http://bad.invalid"
      = { url := "http://bad.invalid", title := "",
          err := "dial tcp: connection refused", responseCode := 0 }
    ∧ getWebContent noNetwork (["http://a.com"] ++ "http://bad.invalid" :: ["http://b.com"])
      = getWebContent noNetwork ["http://a.com"]
        ++ getWebContentOne noNetwork "http://bad.invalid"
          :: getWebContent noNetwork ["http://b.com"] :=
  getWebContent_failure_local noNetwork "http://bad.invalid"
    "dial tcp: connection refused" ["http://a.com"] ["http://b.com"] (by decide)

/-- C9: a result with a non-empty error is printed with the magenta marker
in the `[Error]` format; the status-derived color — which would be the
neutral reset marker for the error result's zero status code — is computed
but has no effect on the line (the line is unchanged under any status
code). -/
theorem presentResult_error_magenta (res : result) (n : Int)
    (h : res.err ≠ "") :
    presentResult res
      = colorMagenta ++ "[Error] " ++ res.url ++ ": " ++ res.err
        ++ colorReset ++ "\n"
    ∧ presentResult { res with responseCode := n } = presentResult res
    ∧ colorForStatusCode 0 = colorReset
    ∧ colorMagenta ≠ colorReset := by
  refine ⟨?_, ?_, by decide, by decide⟩
  · simp [presentResult, h]
  · simp [presentResult, h]

/-- C9 witness: a transport-failure result with zero status code. -/
theorem presentResult_error_magenta_witness :
    presentResult ⟨"http://bad.invalid", "", "connection refused", 0⟩
      = colorMagenta ++ "[Error] " ++ "http://bad.invalid" ++ ": "
        ++ "connection refused" ++ colorReset ++ "\n"
    ∧ presentResult
        ⟨"http://bad.invalid", "", "connection refused", (404 : Int)⟩
      = presentResult ⟨"http://bad.invalid", "", "connection refused", 0⟩
    ∧ colorForStatusCode 0 = colorReset
    ∧ colorMagenta ≠ colorReset :=
  presentResult_error_magenta
    ⟨"http://bad.invalid", "", "connection refused", 0⟩ 404 (by decide)

/-- C10: on a body containing an empty title element the token after the
`<title>` start tag is the `</title>` end tag, whose `Data` is the tag name,
so title extraction returns the string "title". -/
theorem getTitle_empty_title_element :
    getTitle [Tok.startTag "html", Tok.startTag "head", Tok.startTag "title",
        Tok.endTag "title", Tok.endTag "head", Tok.endTag "html"] none
      = "title" := by
  decide
